import Mathlib

/-!
Shallow embedding of `src/Detector.py` (class `Detector`) from the
igait-detectron2 repository, together with theorems checking the
specification's claims about it.

External collaborators (detectron2's `DefaultPredictor`, `model_zoo`,
`MetadataCatalog`, the visualizer, and OpenCV's codec / window I/O) are
modelled as abstract data: the predictor is a function from a frame to its
prediction output, a video capture is the list of frames that its
successive `read()` calls yield before the first failed read, and observable
side effects (prints, files written, directories created, windows shown,
`cap.release()`) are recorded explicitly in result records.
-/

set_option autoImplicit false

namespace Detectron

/-- Helper for substring search: whether the first character list occurs at
the head of the second. -/
def listStartsWith : List Char → List Char → Bool
  | [], _ => true
  | _ :: _, [] => false
  | a :: as, b :: bs => a = b && listStartsWith as bs

/-- Whether the first character list occurs contiguously anywhere in the
second. -/
def listHasSub (needle : List Char) : List Char → Bool
  | [] => needle.isEmpty
  | b :: bs => listStartsWith needle (b :: bs) || listHasSub needle bs

/-- Model of the Python operator `needle in hay` on strings (substring
containment), as used in `"person" in class_catalog[class_index]` at
src/Detector.py line 167. -/
def pyIn (needle hay : String) : Bool :=
  listHasSub needle.toList hay.toList

/-! ## Data model

A decoded frame is abstracted to an identifier; the external predictor maps
it to a prediction output. -/

/-- One decoded video frame, abstracted to an identifier (its pixel content
only matters through the external predictor). -/
abbrev Frame := Nat

/-- Output of one predictor call on the panoptic-segmentation path of
`validateUser` (src/Detector.py lines 153-157): `instances.pred_classes`
gives one class index per prediction box, and the boxes are enumerated in
step with the class indexes (detectron2 guarantees the two sequences have
equal length).  The panoptic payload (`panoptic_seg`) is used only for
drawing the evidence image, so it carries no data here. -/
structure PSOutput where
  predClasses : List Nat
deriving Repr, DecidableEq

/-- Environment of external collaborators bound to one `Detector` instance:
the predictor (constructed once in `__init__`), the dataset metadata's
`thing_classes` catalog, and the process facts printed by the diagnostics
(`os.getcwd()` and the rendering of `os.listdir` at src/Detector.py lines
135-136). -/
structure Env where
  predict : Frame → PSOutput
  thingClasses : List String
  cwd : String
  dirListing : String

/-- Model of `cv2.VideoCapture(videoPath)`: the path it was opened with,
whether `isOpened()` is true, and the frames that successive `read()` calls
decode before the first `success == False`. -/
structure VideoSource where
  path : String
  opens : Bool
  frames : List Frame
deriving Repr, DecidableEq

/-! ## Detector.__init__ (src/Detector.py lines 11-44) -/

/-- Observable configuration state produced by `Detector.__init__`:
`configFile`/`weights` are `none` while the `get_cfg()` defaults are
untouched, and `some s` once `merge_from_file`/`MODEL.WEIGHTS` set them from
the model-zoo entry `s` (`model_zoo.get_checkpoint_url` is abstracted by
the yaml key it is called with).  `scoreThreshTest` is
`MODEL.ROI_HEADS.SCORE_THRESH_TEST` and `device` is `MODEL.DEVICE`. -/
structure DetectorCfg where
  configFile : Option String
  weights : Option String
  scoreThreshTest : Rat
  device : String
deriving Repr, DecidableEq

/-- The `get_cfg()` base configuration, before `__init__` touches it.  The
numeric library default of the score threshold is irrelevant because
`__init__` overwrites it unconditionally; it is taken as 0 here. -/
def getCfgBase : DetectorCfg :=
  { configFile := none, weights := none, scoreThreshTest := 0, device := "" }

/-- Embedding of `Detector.__init__` (src/Detector.py lines 11-44): the
five-way `if/elif` chain on `model_type` selects a model-zoo config and
checkpoint, an unrecognized token falls through the chain leaving the
defaults untouched, and then the score threshold is set to 0.7 and the
device to "cuda" unconditionally.  The Python constructor has no `else`
branch and raises nothing for unknown tokens. -/
def detectorInit (model_type : String) : DetectorCfg :=
  let cfg :=
    if model_type = "OD" then
      { getCfgBase with
        configFile := some "COCO-Detection/faster_rcnn_R_101_FPN_3x.yaml",
        weights := some "COCO-Detection/faster_rcnn_R_101_FPN_3x.yaml" }
    else if model_type = "IS" then
      { getCfgBase with
        configFile := some "COCO-InstanceSegmentation/mask_rcnn_R_50_FPN_3x.yaml",
        weights := some "COCO-InstanceSegmentation/mask_rcnn_R_50_FPN_3x.yaml" }
    else if model_type = "KP" then
      { getCfgBase with
        configFile := some "COCO-Keypoints/keypoint_rcnn_R_50_FPN_3x.yaml",
        weights := some "COCO-Keypoints/keypoint_rcnn_R_50_FPN_3x.yaml" }
    else if model_type = "LVIS" then
      { getCfgBase with
        configFile := some "LVISv0.5-InstanceSegmentation/mask_rcnn_X_101_32x8d_FPN_1x.yaml",
        weights := some "LVISv0.5-InstanceSegmentation/mask_rcnn_X_101_32x8d_FPN_1x.yaml" }
    else if model_type = "PS" then
      { getCfgBase with
        configFile := some "COCO-PanopticSegmentation/panoptic_fpn_R_101_3x.yaml",
        weights := some "COCO-PanopticSegmentation/panoptic_fpn_R_101_3x.yaml" }
    else
      getCfgBase
  { cfg with scoreThreshTest := 0.7, device := "cuda" }

/-! ## Detector.onImage (src/Detector.py lines 46-76) -/

/-- Observable outcome of `onImage`: the Python return value (`none`
models Python `None`), the paths passed to any image-writing call, the
window titles passed to `cv2.imshow`, and the number of predictor
invocations. -/
structure OnImageResult where
  ret : Option Bool
  filesWritten : List String
  windows : List String
  predictorCalls : Nat
deriving Repr, DecidableEq

/-- Embedding of `Detector.onImage` (src/Detector.py lines 46-76).  Both
branches run the predictor once on the image, build a visualizer rendering
(instance predictions for non-"PS" profiles, panoptic predictions for
"PS"), display it with `cv2.imshow("Result", ...)` followed by
`cv2.waitKey(0)`, and fall off the end of the function.  No branch calls
any file-writing routine and no output path is derived from `imagePath`. -/
def onImage (model_type : String) (imagePath : String) : OnImageResult :=
  if ¬ (model_type = "PS") then
    -- predictions = self.predictor(image); draw_instance_predictions; imshow
    { ret := none, filesWritten := [], windows := ["Result"], predictorCalls := 1 }
  else
    -- panoptic_seg branch: one predictor call, draw_panoptic_seg_predictions; imshow
    { ret := none, filesWritten := [], windows := ["Result"], predictorCalls := 1 }

/-! ## Detector.onVideo (src/Detector.py lines 78-119) -/

/-- Observable outcome of `onVideo`: the Python return value (always
`None`, modelled `none`), how many frames were inferred and shown, whether
`cap.release()` was ever called, and the lines printed. -/
structure OnVideoResult where
  ret : Option Bool
  framesShown : Nat
  predictorCalls : Nat
  released : Bool
  printed : List String
deriving Repr, DecidableEq

/-- Key code `ord("q")`, compared against `cv2.waitKey(1) & 0xFF` at
src/Detector.py line 115. -/
def qKeyCode : Nat := 113

/-- The frame loop of `onVideo` (src/Detector.py lines 96-119): each
iteration infers and displays one frame, then polls the keyboard; the loop
breaks if the masked key equals `ord("q")`, otherwise it reads the next
frame and continues until a read fails.  `keys i` is the `cv2.waitKey(1)`
value polled after showing the i-th frame (0-based); the count of frames
shown so far is threaded as `shown`. -/
def onVideoLoop (keys : Nat → Nat) : List Frame → Nat → Nat
  | [], shown => shown
  | _ :: rest, shown =>
    let shown' := shown + 1
    if keys shown % 256 = qKeyCode then shown' else onVideoLoop keys rest shown'

/-- Embedding of `Detector.onVideo` (src/Detector.py lines 78-119).  If the
capture is not opened it prints the fixed message "Error, opening file"
(the path is not interpolated) and returns `None`; otherwise it runs the
frame loop and falls off the end, also returning `None`.  No path calls
`cap.release()`. -/
def onVideo (keys : Nat → Nat) (src : VideoSource) : OnVideoResult :=
  if src.opens = false then
    { ret := none, framesShown := 0, predictorCalls := 0, released := false,
      printed := ["Error, opening file"] }
  else
    let n := onVideoLoop keys src.frames 0
    { ret := none, framesShown := n, predictorCalls := n, released := false,
      printed := [] }

/-! ## Detector.validateUser (src/Detector.py lines 122-191) -/

/-- The hard-coded output directory of `validateUser`
(src/Detector.py line 129). -/
def outputDir : String := "/iGAIT-VIDEO-PRECHECK/output"

/-- The evidence path `os.path.join(output_dir,
"detection_frame_<n>.jpg")` written for frame number `n`
(src/Detector.py line 175). -/
def evidencePath (n : Nat) : String :=
  outputDir ++ "/detection_frame_" ++ toString n ++ ".jpg"

/-- Whether some detection in a frame's predictor output has a class name
containing "person": the inner `for` loop of `validateUser`
(src/Detector.py lines 163-182) walks the prediction boxes in order, looks
up `class_catalog[class_index]`, and its body fires on the first index
whose name contains "person" (then `break`s out of the inner loop only).
The predictor's contract keeps every class index inside the catalog; an
out-of-range index is mapped to the empty name, which never matches. -/
def frameHasPerson (catalog : List String) (o : PSOutput) : Bool :=
  o.predClasses.any fun ci => pyIn "person" (catalog.getD ci "")

/-- Mutable state of the `while True` scan loop of `validateUser`
(src/Detector.py lines 139-182): the `frame_count` and `person_detected`
variables, plus the recorded side effects (evidence files written,
predictor invocations, printed lines). -/
structure ScanState where
  frameCount : Nat
  personDetected : Bool
  evidence : List String
  calls : Nat
  printed : List String
deriving Repr, DecidableEq

/-- One iteration of the scan loop on a successfully read frame
(src/Detector.py lines 149-182): increment `frame_count`, print the
progress line, and — only when `model_type == "PS"` — run the predictor
once and inspect its detections; on a "person" hit set the flag, print the
two detection lines, and write one evidence JPEG named by the current frame
count.  For any other model type the iteration does nothing further. -/
def scanStep (env : Env) (model_type : String) (f : Frame) (s : ScanState) : ScanState :=
  let n := s.frameCount + 1
  let s1 : ScanState :=
    { s with frameCount := n,
             printed := s.printed ++ ["Processing frame " ++ toString n] }
  if model_type = "PS" then
    let o := env.predict f
    let s2 : ScanState := { s1 with calls := s1.calls + 1 }
    if frameHasPerson env.thingClasses o then
      { s2 with personDetected := true,
                evidence := s2.evidence ++ [evidencePath n],
                printed := s2.printed ++
                  ["PERSON DETECTED in frame " ++ toString n,
                   "Saved detection frame to: " ++ evidencePath n] }
    else s2
  else s1

/-- The scan loop over the remaining decodable frames: `while True` with
`cap.read()` (src/Detector.py lines 144-147) processes each decoded frame
with `scanStep` and exits when a read fails.  Note the `break` at
src/Detector.py line 180 leaves only the inner detection loop (its comment
reads "Break to process whole vid"), so the outer loop never stops early. -/
def scanFrames (env : Env) (model_type : String) : List Frame → ScanState → ScanState
  | [], s => s
  | f :: rest, s => scanFrames env model_type rest (scanStep env model_type f s)

/-- Observable outcome of `validateUser`: the Python return value
(`some b` models returning the boolean `b`), whether any exception was
raised (the function body contains no `raise`, so this is `false` on every
path), the final `frame_count`, the evidence files written, the directories
created by `os.makedirs`, the number of predictor invocations, whether
`cap.release()` was called, and the printed lines. -/
structure ValidateResult where
  ret : Option Bool
  raises : Bool
  framesRead : Nat
  evidenceFiles : List String
  dirsCreated : List String
  predictorCalls : Nat
  released : Bool
  printed : List String
deriving Repr, DecidableEq

/-- Embedding of `Detector.validateUser` (src/Detector.py lines 122-191).
First `os.makedirs(output_dir, exist_ok=True)` runs, before the capture is
even constructed.  If the capture fails to open, three diagnostic lines are
printed (the first interpolates the attempted path) and `False` is
returned; `cap.release()` is not reached on that path.  Otherwise the
header line is printed, the scan loop runs to the end of the stream, the
capture is released, a verdict line is printed and the `person_detected`
flag is returned. -/
def validateUser (env : Env) (model_type : String) (src : VideoSource) : ValidateResult :=
  if src.opens = false then
    { ret := some false, raises := false, framesRead := 0, evidenceFiles := [],
      dirsCreated := [outputDir], predictorCalls := 0, released := false,
      printed := ["Error opening file: " ++ src.path,
                  "Current working directory: " ++ env.cwd,
                  "Files in directory: " ++ env.dirListing] }
  else
    let s0 : ScanState :=
      { frameCount := 0, personDetected := false, evidence := [], calls := 0,
        printed := ["Processing video: " ++ src.path] }
    let s := scanFrames env model_type src.frames s0
    { ret := some s.personDetected, raises := false, framesRead := s.frameCount,
      evidenceFiles := s.evidence, dirsCreated := [outputDir],
      predictorCalls := s.calls, released := true,
      printed := s.printed ++
        [if s.personDetected then "Validation successful: Person detected in video"
         else "Validation failed: No person detected in video"] }

/-! ## Derived notions and concrete inputs used by the theorems -/

/-- Shorthand: the predictor output for frame `f` contains a detection
whose class name contains "person". -/
def personHit (env : Env) (f : Frame) : Bool :=
  frameHasPerson env.thingClasses (env.predict f)

/-- Evidence files the scan loop writes when its frame counter starts at
`base`: one JPEG named by the 1-based frame number for every frame whose
predictions contain a "person" detection, in frame order. -/
def evidenceFor (env : Env) (base : Nat) : List Frame → List String
  | [] => []
  | f :: rest =>
    (if personHit env f then [evidencePath (base + 1)] else []) ++
      evidenceFor env (base + 1) rest

/-- Demo predictor for concrete runs: frame 0 detects a person, frame 1
detects a car followed by a person, every other frame detects only a
bicycle. -/
def predictDemo : Frame → PSOutput := fun f =>
  if f = 0 then { predClasses := [0] }
  else if f = 1 then { predClasses := [2, 0] }
  else { predClasses := [1] }

/-- Demo environment with a small COCO-style `thing_classes` catalog. -/
def envDemo : Env :=
  { predict := predictDemo, thingClasses := ["person", "bicycle", "car"],
    cwd := "/app", dirListing := "[]" }

/-- A video that opens and decodes two frames, both containing a person. -/
def vidTwoPersons : VideoSource :=
  { path := "walk.mp4", opens := true, frames := [0, 1] }

/-- A video that opens and decodes three frames, with a person only in the
second one. -/
def vidMixed : VideoSource :=
  { path := "mixed.mp4", opens := true, frames := [2, 0, 2] }

/-- A video that opens but decodes zero frames. -/
def vidEmpty : VideoSource :=
  { path := "empty.mp4", opens := true, frames := [] }

/-- A video path that fails to open. -/
def vidBad : VideoSource :=
  { path := "/data/missing.mp4", opens := false, frames := [] }

/-- Keyboard model in which no key is ever pressed
(`cv2.waitKey` keeps returning 0). -/
def keysNone : Nat → Nat := fun _ => 0

/-! ## Lemmas about one scan-loop iteration and the whole scan -/

/-- Closed form of one scan iteration under the "PS" profile. -/
theorem scanStep_PS_eq (env : Env) (f : Frame) (s : ScanState) :
    scanStep env "PS" f s =
      { frameCount := s.frameCount + 1,
        personDetected := s.personDetected || personHit env f,
        evidence := s.evidence ++
          (if personHit env f then [evidencePath (s.frameCount + 1)] else []),
        calls := s.calls + 1,
        printed := s.printed ++
          (["Processing frame " ++ toString (s.frameCount + 1)] ++
           (if personHit env f then
              ["PERSON DETECTED in frame " ++ toString (s.frameCount + 1),
               "Saved detection frame to: " ++ evidencePath (s.frameCount + 1)]
            else [])) } := by
  unfold scanStep personHit
  by_cases h : frameHasPerson env.thingClasses (env.predict f) <;> simp [h]

/-- One scan iteration under any profile other than "PS" only counts the
frame and prints the progress line. -/
theorem scanStep_ne_PS_eq (env : Env) (mt : String) (f : Frame) (s : ScanState)
    (h : ¬ mt = "PS") :
    scanStep env mt f s =
      { s with frameCount := s.frameCount + 1,
               printed := s.printed ++
                 ["Processing frame " ++ toString (s.frameCount + 1)] } := by
  simp [scanStep, h]

/-- Under "PS" the scan loop reads every remaining frame. -/
theorem scanFrames_PS_frameCount (env : Env) (fs : List Frame) (s : ScanState) :
    (scanFrames env "PS" fs s).frameCount = s.frameCount + fs.length := by
  induction fs generalizing s with
  | nil => rfl
  | cons f rest ih =>
    have hstep : scanFrames env "PS" (f :: rest) s =
        scanFrames env "PS" rest (scanStep env "PS" f s) := rfl
    rw [hstep, ih, scanStep_PS_eq]
    simp
    omega

/-- Under "PS" the scan loop runs the predictor once per remaining frame. -/
theorem scanFrames_PS_calls (env : Env) (fs : List Frame) (s : ScanState) :
    (scanFrames env "PS" fs s).calls = s.calls + fs.length := by
  induction fs generalizing s with
  | nil => rfl
  | cons f rest ih =>
    have hstep : scanFrames env "PS" (f :: rest) s =
        scanFrames env "PS" rest (scanStep env "PS" f s) := rfl
    rw [hstep, ih, scanStep_PS_eq]
    simp
    omega

/-- Under "PS" the final `person_detected` flag is the disjunction of the
incoming flag with "some remaining frame contains a person". -/
theorem scanFrames_PS_personDetected (env : Env) (fs : List Frame) (s : ScanState) :
    (scanFrames env "PS" fs s).personDetected =
      (s.personDetected || fs.any (personHit env)) := by
  induction fs generalizing s with
  | nil => simp [scanFrames]
  | cons f rest ih =>
    have hstep : scanFrames env "PS" (f :: rest) s =
        scanFrames env "PS" rest (scanStep env "PS" f s) := rfl
    rw [hstep, ih, scanStep_PS_eq]
    simp [Bool.or_assoc]

/-- Under "PS" the scan loop appends exactly the evidence files described
by `evidenceFor`: one per remaining person frame, named by its 1-based
frame number. -/
theorem scanFrames_PS_evidence (env : Env) (fs : List Frame) (s : ScanState) :
    (scanFrames env "PS" fs s).evidence =
      s.evidence ++ evidenceFor env s.frameCount fs := by
  induction fs generalizing s with
  | nil => simp [scanFrames, evidenceFor]
  | cons f rest ih =>
    have hstep : scanFrames env "PS" (f :: rest) s =
        scanFrames env "PS" rest (scanStep env "PS" f s) := rfl
    rw [hstep, ih, scanStep_PS_eq]
    by_cases h : personHit env f <;> simp [evidenceFor, h]

/-- `evidenceFor` has one entry per person frame. -/
theorem evidenceFor_length (env : Env) (base : Nat) (fs : List Frame) :
    (evidenceFor env base fs).length = (fs.filter (personHit env)).length := by
  induction fs generalizing base with
  | nil => rfl
  | cons f rest ih =>
    by_cases h : personHit env f <;> simp [evidenceFor, List.filter_cons, h, ih]

/-- Under any profile other than "PS" the scan loop never runs the
predictor, never sets the flag, writes nothing, and still counts every
remaining frame. -/
theorem scanFrames_ne_PS_eq (env : Env) (mt : String) (fs : List Frame) (s : ScanState)
    (h : ¬ mt = "PS") :
    (scanFrames env mt fs s).calls = s.calls ∧
    (scanFrames env mt fs s).personDetected = s.personDetected ∧
    (scanFrames env mt fs s).evidence = s.evidence ∧
    (scanFrames env mt fs s).frameCount = s.frameCount + fs.length := by
  induction fs generalizing s with
  | nil => simp [scanFrames]
  | cons f rest ih =>
    have hstep : scanFrames env mt (f :: rest) s =
        scanFrames env mt rest (scanStep env mt f s) := rfl
    rw [hstep, scanStep_ne_PS_eq env mt f s h]
    obtain ⟨h1, h2, h3, h4⟩ := ih
      { s with frameCount := s.frameCount + 1,
               printed := s.printed ++
                 ["Processing frame " ++ toString (s.frameCount + 1)] }
    refine ⟨by simp [h1], by simp [h2], by simp [h3], by simp [h4]; try omega⟩

/-! ## Claim theorems -/

/-- C1 (counterexample): on a two-frame video whose first frame already
contains a "person" detection, `validateUser` does not stop at that frame:
it reads and infers the second frame too (two predictor calls, final frame
count 2) and writes two evidence JPEGs, refuting "no later frame is read or
inferred, frames_scanned equals the 1-based index of the first person
frame, and exactly one evidence JPEG is written". -/
theorem validateUser_first_person_stop_cex :
    ¬ ((validateUser envDemo "PS" vidTwoPersons).framesRead = 1 ∧
       (validateUser envDemo "PS" vidTwoPersons).predictorCalls = 1 ∧
       (validateUser envDemo "PS" vidTwoPersons).evidenceFiles.length = 1) := by
  decide

/-- C1 (amended): for every video that opens, `validateUser` under the
"PS" profile scans and infers every decodable frame (the `break` leaves
only the inner per-detection loop), writes one evidence JPEG per frame
containing a "person" detection — named by that frame's 1-based index —
and returns `True` exactly when some frame contains one. -/
theorem validateUser_scans_whole_video (env : Env) (src : VideoSource)
    (h : src.opens = true) :
    (validateUser env "PS" src).framesRead = src.frames.length ∧
    (validateUser env "PS" src).predictorCalls = src.frames.length ∧
    (validateUser env "PS" src).ret = some (src.frames.any (personHit env)) ∧
    (validateUser env "PS" src).evidenceFiles = evidenceFor env 0 src.frames := by
  simp [validateUser, h, scanFrames_PS_frameCount, scanFrames_PS_calls,
        scanFrames_PS_personDetected, scanFrames_PS_evidence]

/-- C1 (witness): the amended claim evaluated on the three-frame demo
video whose second frame contains the only person. -/
theorem validateUser_scans_whole_video_w :
    (validateUser envDemo "PS" vidMixed).framesRead = vidMixed.frames.length ∧
    (validateUser envDemo "PS" vidMixed).predictorCalls = vidMixed.frames.length ∧
    (validateUser envDemo "PS" vidMixed).ret =
      some (vidMixed.frames.any (personHit envDemo)) ∧
    (validateUser envDemo "PS" vidMixed).evidenceFiles =
      evidenceFor envDemo 0 vidMixed.frames :=
  validateUser_scans_whole_video envDemo vidMixed rfl

/-- C2: for every model type other than "PS", `validateUser` never invokes
the predictor on any frame and always returns `False`, whatever the video
contains. -/
theorem validateUser_non_PS_no_inference (env : Env) (mt : String) (src : VideoSource)
    (h : ¬ mt = "PS") :
    (validateUser env mt src).predictorCalls = 0 ∧
    (validateUser env mt src).ret = some false := by
  by_cases ho : src.opens = false
  · simp [validateUser, ho]
  · have hs := scanFrames_ne_PS_eq env mt src.frames
      { frameCount := 0, personDetected := false, evidence := [], calls := 0,
        printed := ["Processing video: " ++ src.path] } h
    simp [validateUser, ho, hs.1, hs.2.1]

/-- C2 (witness): the claim evaluated with the "OD" profile on a video
both of whose frames contain a person. -/
theorem validateUser_non_PS_no_inference_w :
    (validateUser envDemo "OD" vidTwoPersons).predictorCalls = 0 ∧
    (validateUser envDemo "OD" vidTwoPersons).ret = some false :=
  validateUser_non_PS_no_inference envDemo "OD" vidTwoPersons (by decide)

/-- C3: evaluating the constructor at the unrecognized token "XYZ" shows
it raises nothing and silently proceeds with the untouched default
configuration (only the threshold and device are set), contradicting the
required `ConfigurationError`. -/
theorem detectorInit_unknown_token_silent_default :
    detectorInit "XYZ" =
      { configFile := none, weights := none, scoreThreshTest := 0.7,
        device := "cuda" } :=
  rfl

/-- C4 (counterexample): on a path that fails to open, `validateUser`
raises no error to the caller (it returns the default `False`) and has
already created the output directory, refuting "fails with a
SourceOpenError surfaced to the caller ... and no output files are created
on disk". -/
theorem validateUser_open_failure_cex :
    ¬ ((validateUser envDemo "PS" vidBad).raises = true ∧
       (validateUser envDemo "PS" vidBad).dirsCreated = []) := by
  decide

/-- C4 (amended): for every video path that fails to open, `validateUser`
prints a diagnostic whose first line contains the attempted path (plus the
working directory and its listing), returns `False` without raising,
scans no frames and writes no evidence files — but the fixed output
directory has already been created. -/
theorem validateUser_open_failure_diag (env : Env) (mt : String) (src : VideoSource)
    (h : src.opens = false) :
    (validateUser env mt src).ret = some false ∧
    (validateUser env mt src).raises = false ∧
    (validateUser env mt src).printed =
      ["Error opening file: " ++ src.path,
       "Current working directory: " ++ env.cwd,
       "Files in directory: " ++ env.dirListing] ∧
    (validateUser env mt src).framesRead = 0 ∧
    (validateUser env mt src).evidenceFiles = [] ∧
    (validateUser env mt src).dirsCreated = [outputDir] := by
  simp [validateUser, h]

/-- C4 (witness): the amended claim evaluated on the unopenable demo
path. -/
theorem validateUser_open_failure_diag_w :
    (validateUser envDemo "PS" vidBad).ret = some false ∧
    (validateUser envDemo "PS" vidBad).raises = false ∧
    (validateUser envDemo "PS" vidBad).printed =
      ["Error opening file: " ++ vidBad.path,
       "Current working directory: " ++ envDemo.cwd,
       "Files in directory: " ++ envDemo.dirListing] ∧
    (validateUser envDemo "PS" vidBad).framesRead = 0 ∧
    (validateUser envDemo "PS" vidBad).evidenceFiles = [] ∧
    (validateUser envDemo "PS" vidBad).dirsCreated = [outputDir] :=
  validateUser_open_failure_diag envDemo "PS" vidBad rfl

/-- C5: for every video source that opens but yields zero decodable
frames, the scan loop completes after zero iterations, the predictor is
never invoked, and `validateUser` returns `False`. -/
theorem validateUser_zero_frames (env : Env) (mt : String) (src : VideoSource)
    (h1 : src.opens = true) (h2 : src.frames = []) :
    (validateUser env mt src).framesRead = 0 ∧
    (validateUser env mt src).predictorCalls = 0 ∧
    (validateUser env mt src).ret = some false := by
  simp [validateUser, h1, h2, scanFrames]

/-- C5 (witness): the claim evaluated on the opened-but-empty demo
video. -/
theorem validateUser_zero_frames_w :
    (validateUser envDemo "PS" vidEmpty).framesRead = 0 ∧
    (validateUser envDemo "PS" vidEmpty).predictorCalls = 0 ∧
    (validateUser envDemo "PS" vidEmpty).ret = some false :=
  validateUser_zero_frames envDemo "PS" vidEmpty rfl rfl

/-- C6: each of the five recognized tokens yields a configuration whose
score threshold is 0.7 and whose config/weight sources are the model-zoo
entry of the token's documented task kind: OD maps to COCO object
detection, IS to COCO instance segmentation, KP to COCO keypoint
detection, LVIS to LVIS v0.5 instance segmentation, and PS to COCO
panoptic segmentation. -/
theorem detectorInit_five_profiles :
    detectorInit "OD" =
      { configFile := some "COCO-Detection/faster_rcnn_R_101_FPN_3x.yaml",
        weights := some "COCO-Detection/faster_rcnn_R_101_FPN_3x.yaml",
        scoreThreshTest := 0.7, device := "cuda" } ∧
    detectorInit "IS" =
      { configFile := some "COCO-InstanceSegmentation/mask_rcnn_R_50_FPN_3x.yaml",
        weights := some "COCO-InstanceSegmentation/mask_rcnn_R_50_FPN_3x.yaml",
        scoreThreshTest := 0.7, device := "cuda" } ∧
    detectorInit "KP" =
      { configFile := some "COCO-Keypoints/keypoint_rcnn_R_50_FPN_3x.yaml",
        weights := some "COCO-Keypoints/keypoint_rcnn_R_50_FPN_3x.yaml",
        scoreThreshTest := 0.7, device := "cuda" } ∧
    detectorInit "LVIS" =
      { configFile := some "LVISv0.5-InstanceSegmentation/mask_rcnn_X_101_32x8d_FPN_1x.yaml",
        weights := some "LVISv0.5-InstanceSegmentation/mask_rcnn_X_101_32x8d_FPN_1x.yaml",
        scoreThreshTest := 0.7, device := "cuda" } ∧
    detectorInit "PS" =
      { configFile := some "COCO-PanopticSegmentation/panoptic_fpn_R_101_3x.yaml",
        weights := some "COCO-PanopticSegmentation/panoptic_fpn_R_101_3x.yaml",
        scoreThreshTest := 0.7, device := "cuda" } :=
  ⟨rfl, rfl, rfl, rfl, rfl⟩

/-- C7 (counterexample): an image job on "photo.jpg" writes no file at
all — in particular not "photo_processed.jpg" — refuting "the annotated
result is written to a sibling file with _processed inserted before the
extension". -/
theorem onImage_processed_path_cex :
    ¬ ("photo_processed.jpg" ∈ (onImage "OD" "photo.jpg").filesWritten) := by
  decide

/-- C7 (amended): for every model type and input path, `onImage` writes
no output file; it renders the annotated result once in the on-screen
window "Result" (blocking on a keypress) and returns `None`. -/
theorem onImage_displays_writes_nothing (mt p : String) :
    (onImage mt p).filesWritten = [] ∧
    (onImage mt p).windows = ["Result"] ∧
    (onImage mt p).ret = none ∧
    (onImage mt p).predictorCalls = 1 := by
  by_cases h : mt = "PS" <;> simp [onImage, h]

/-- C8 (counterexample): a run of `onVideo` that opens its source and
processes it to end-of-stream never calls `cap.release()`, refuting
"guaranteed release on every exit path of the video-processing
operations". -/
theorem onVideo_release_cex :
    ¬ ((onVideo keysNone vidTwoPersons).released = true) := by
  decide

/-- C8 (amended): `onVideo` never releases its capture on any path, and
`validateUser` releases it exactly when the source opened — in particular
not on the open-failure path (and no handler guards the loop against
mid-loop exceptions). -/
theorem release_discipline (env : Env) (mt : String) (keys : Nat → Nat)
    (src : VideoSource) :
    (onVideo keys src).released = false ∧
    (validateUser env mt src).released = src.opens := by
  constructor
  · cases hs : src.opens <;> simp [onVideo, hs]
  · cases hs : src.opens <;> simp [validateUser, hs]

/-- C9: every call to `validateUser` — the open-failure path included —
creates the fixed output directory, because `os.makedirs` runs before the
capture is even constructed. -/
theorem validateUser_always_creates_output_dir (env : Env) (mt : String)
    (src : VideoSource) :
    (validateUser env mt src).dirsCreated = [outputDir] := by
  cases hs : src.opens <;> simp [validateUser, hs]

/-- C10: `onVideo` returns `None` on every path — after printing the fixed
message "Error, opening file" (which does not interpolate the attempted
path) when the source fails to open, and likewise `None` on any other
run — so the return value cannot distinguish an open failure from a
processed video. -/
theorem onVideo_returns_none (keys keys2 : Nat → Nat) (src src2 : VideoSource)
    (h : src.opens = false) :
    (onVideo keys src).ret = none ∧
    (onVideo keys src).printed = ["Error, opening file"] ∧
    (onVideo keys2 src2).ret = none := by
  refine ⟨by simp [onVideo, h], by simp [onVideo, h], ?_⟩
  cases hs : src2.opens <;> simp [onVideo, hs]

/-- C10 (witness): the claim evaluated on the unopenable demo path and,
for the second source, on a video processed to end-of-stream. -/
theorem onVideo_returns_none_w :
    (onVideo keysNone vidBad).ret = none ∧
    (onVideo keysNone vidBad).printed = ["Error, opening file"] ∧
    (onVideo keysNone vidTwoPersons).ret = none :=
  onVideo_returns_none keysNone keysNone vidBad vidTwoPersons rfl

end Detectron
